import Mathlib

/-!
Shallow embedding of the BC commercial solar calculation engine
(`client/src/lib/solar-calculations.ts`) and its in-memory result cache
(`client/src/lib/calculation-cache.ts`).

Numbers are modelled as exact rationals (`ℚ`); JavaScript `Math.round`
becomes `jsRound` (round to nearest, halves toward positive infinity).
The cache key — `JSON.stringify` of the eight input fields in a fixed
order — is injective on those fields, so it is modelled by the input
record itself, and the JS `Map` by an association list in insertion
order.  Fallible code returns `Except String`.  `Date.now()` is passed
explicitly as the `now : ℤ` argument of each cache operation.
-/

namespace BCSolar

/-- `SolarCalculationInputs` (solar-calculations.ts, lines 1–10). -/
structure SolarCalculationInputs where
  systemSize : ℚ
  monthlyUsage : ℚ
  currentBill : ℚ
  rateTier : String
  installationType : String
  panelQuality : String
  batteryStorage : String
  location : String
deriving DecidableEq, Repr

/-- `SolarCalculationResults` (solar-calculations.ts, lines 12–23).
Fields passed through `Math.round` are integers; the three one-decimal
fields keep the rational value `round(10·x)/10`. -/
structure SolarCalculationResults where
  systemSize : ℚ
  annualProduction : ℤ
  totalCost : ℤ
  cleanBcRebates : ℤ
  federalIncentives : ℤ
  netCost : ℤ
  annualSavings : ℤ
  paybackPeriod : ℚ
  roi25Year : ℚ
  co2OffsetAnnual : ℚ
deriving DecidableEq, Repr

/-- JavaScript `Math.round`: nearest integer, halves toward +∞. -/
def jsRound (q : ℚ) : ℤ := ⌊q + 1/2⌋

/-- `BC_SOLAR_IRRADIANCE` table (lines 26–33), kWh/m²/day by region. -/
def BC_SOLAR_IRRADIANCE : List (String × ℚ) :=
  [("vancouver", 3.2), ("victoria", 3.5), ("kelowna", 3.8),
   ("kamloops", 3.6), ("prince_george", 3.1), ("default", 3.3)]

/-- `BC_COMMERCIAL_RATES` table (lines 36–41), CAD/kWh by tier. -/
def BC_COMMERCIAL_RATES : List (String × ℚ) :=
  [("Small General Service", 0.1139), ("Medium General Service", 0.1059),
   ("Large General Service", 0.0879), ("Transmission Service", 0.0759)]

/-- Record-literal lookup `TABLE[key]` as an association-list search. -/
def tableLookup (tbl : List (String × ℚ)) (k : String) : Option ℚ :=
  (tbl.find? (fun p => decide (p.1 = k))).map (·.2)

/-- Line 88: `location?.toLowerCase() || 'default'` — the empty string is
falsy in JS, so it falls back to `"default"`. -/
def locationKeyOf (location : String) : String :=
  if location = "" then "default" else location.toLower

/-- Line 89: `BC_SOLAR_IRRADIANCE[locationKey] || BC_SOLAR_IRRADIANCE.default`.
No table value is `0` (falsy), so `||` only fires on a missed lookup. -/
def irradianceOf (locationKey : String) : ℚ :=
  (tableLookup BC_SOLAR_IRRADIANCE locationKey).getD 3.3

/-- Line 174: `BC_COMMERCIAL_RATES[rateTier] || BC_COMMERCIAL_RATES["Medium General Service"]`. -/
def energyRateOf (rateTier : String) : ℚ :=
  (tableLookup BC_COMMERCIAL_RATES rateTier).getD 0.1059

/-- Lines 91–112: base efficiency 0.85 with the two `switch` adjustments. -/
def systemEfficiencyOf (panelQuality installationType : String) : ℚ :=
  let e : ℚ := 0.85
  let e := if panelQuality = "High Efficiency" then e * 1.1
           else if panelQuality = "Premium Tier 1" then e * 1.15 else e
  let e := if installationType = "Ground-Mount" then e * 1.05
           else if installationType = "Tracker System" then e * 1.25 else e
  e

/-- Lines 118–142: base cost 1750 CAD/kW with the two `switch` adjustments. -/
def baseCostPerKwOf (installationType panelQuality : String) : ℚ :=
  let c : ℚ := 1750
  let c := if installationType = "Ground-Mount" then c * 1.1
           else if installationType = "Carport/Canopy" then c * 1.3
           else if installationType = "Tracker System" then c * 1.5 else c
  let c := if panelQuality = "High Efficiency" then c * 1.15
           else if panelQuality = "Premium Tier 1" then c * 1.25 else c
  c

/-- Lines 146–157: flat battery-storage cost addend. -/
def batteryCostOf (batteryStorage : String) : ℚ :=
  if batteryStorage = "50kWh Commercial Battery" then 75000
  else if batteryStorage = "100kWh Commercial Battery" then 140000
  else if batteryStorage = "200kWh+ Custom Solution" then 250000 else 0

/-- Lines 159–165: CleanBC Business rebate, tiered by system size. -/
def cleanBcRebatesOf (systemSize : ℚ) : ℚ :=
  if 20 ≤ systemSize ∧ systemSize ≤ 100 then min (systemSize * 500) 50000
  else if 100 < systemSize then min (systemSize * 400) 125000
  else 0

/-- Lines 62–198 of `calculateCommercialSolar`: validation and the pure
computation, without the cache wrapper (the spec's `compute`).  The JS
falsiness checks on the four configuration strings are empty-string
checks, since the fields are typed `string`. -/
def compute (inputs : SolarCalculationInputs) : Except String SolarCalculationResults :=
  if inputs.systemSize ≤ 0 ∨ inputs.monthlyUsage ≤ 0 ∨ inputs.currentBill ≤ 0 then
    .error "System size, monthly usage, and current bill must be positive numbers"
  else if inputs.rateTier = "" ∨ inputs.installationType = "" ∨
      inputs.panelQuality = "" ∨ inputs.batteryStorage = "" then
    .error "All configuration options must be selected"
  else
    let irradiance := irradianceOf (locationKeyOf inputs.location)
    let systemEfficiency := systemEfficiencyOf inputs.panelQuality inputs.installationType
    let peakSunHours := irradiance * 365
    let annualProduction := inputs.systemSize * peakSunHours * systemEfficiency
    let baseCostPerKw := baseCostPerKwOf inputs.installationType inputs.panelQuality
    let totalCost := inputs.systemSize * baseCostPerKw + batteryCostOf inputs.batteryStorage
    let cleanBcRebates := cleanBcRebatesOf inputs.systemSize
    let federalIncentives := totalCost * 0.30
    let netCost := totalCost - cleanBcRebates - federalIncentives
    let energyRate := energyRateOf inputs.rateTier
    let annualSavings := annualProduction * energyRate
    let paybackPeriod := netCost / annualSavings
    let totalSavings25Year := annualSavings * 25
    let roi25Year := ((totalSavings25Year - netCost) / netCost) * 100
    let co2OffsetAnnual := (annualProduction * 0.42) / 1000
    .ok { systemSize := inputs.systemSize
          annualProduction := jsRound annualProduction
          totalCost := jsRound totalCost
          cleanBcRebates := jsRound cleanBcRebates
          federalIncentives := jsRound federalIncentives
          netCost := jsRound netCost
          annualSavings := jsRound annualSavings
          paybackPeriod := (jsRound (paybackPeriod * 10) : ℚ) / 10
          roi25Year := (jsRound (roi25Year * 10) : ℚ) / 10
          co2OffsetAnnual := (jsRound (co2OffsetAnnual * 10) : ℚ) / 10 }

/-- The validation predicate of `compute` (lines 79–85): all three numeric
fields strictly positive and the four configuration strings non-empty. -/
def validInput (inputs : SolarCalculationInputs) : Prop :=
  0 < inputs.systemSize ∧ 0 < inputs.monthlyUsage ∧ 0 < inputs.currentBill ∧
  inputs.rateTier ≠ "" ∧ inputs.installationType ≠ "" ∧
  inputs.panelQuality ≠ "" ∧ inputs.batteryStorage ≠ ""

instance (inputs : SolarCalculationInputs) : Decidable (validInput inputs) := by
  unfold validInput; infer_instance

/-! ## The calculation cache (calculation-cache.ts) -/

/-- `CACHE_DURATION` (line 19): 5 minutes in milliseconds. -/
def CACHE_DURATION : ℤ := 5 * 60 * 1000

/-- `CacheEntry` (lines 12–15). -/
structure CacheEntry where
  result : SolarCalculationResults
  timestamp : ℤ
deriving DecidableEq, Repr

/-- The private `Map<string, CacheEntry>` as an association list in
insertion order, keyed by the (injectively serialized) input record. -/
abbrev Cache := List (SolarCalculationInputs × CacheEntry)

/-- `Map.get` on the generated key: first entry whose key matches. -/
def cacheFind (c : Cache) (k : SolarCalculationInputs) : Option CacheEntry :=
  (c.find? (fun p => decide (p.1 = k))).map (·.2)

/-- `CalculationCache.get` (lines 34–47): a present, fresh entry is a hit;
an entry older than `CACHE_DURATION` is deleted and reported as a miss.
Returns the updated table alongside. -/
def cacheGet (c : Cache) (inputs : SolarCalculationInputs) (now : ℤ) :
    Option SolarCalculationResults × Cache :=
  match cacheFind c inputs with
  | none => (none, c)
  | some e =>
      if CACHE_DURATION < now - e.timestamp then
        (none, c.filter (fun p => decide (p.1 ≠ inputs)))
      else (some e.result, c)

/-- JS `Map.set`: overwrite in place when the key is present, else append. -/
def mapSet (c : Cache) (k : SolarCalculationInputs) (e : CacheEntry) : Cache :=
  if c.any (fun p => decide (p.1 = k)) then
    c.map (fun p => if p.1 = k then (k, e) else p)
  else c ++ [(k, e)]

/-- `CalculationCache.cleanup` (lines 62–69): drop every entry strictly
older than the TTL. -/
def cleanup (c : Cache) (now : ℤ) : Cache :=
  c.filter (fun p => decide (now - p.2.timestamp ≤ CACHE_DURATION))

/-- `CalculationCache.set` (lines 49–60): insert with the current
timestamp, then run a cleanup pass when more than 100 entries are stored. -/
def cacheSet (c : Cache) (inputs : SolarCalculationInputs)
    (result : SolarCalculationResults) (now : ℤ) : Cache :=
  if 100 < (mapSet c inputs ⟨result, now⟩).length then
    cleanup (mapSet c inputs ⟨result, now⟩) now
  else mapSet c inputs ⟨result, now⟩

/-- `calculateCommercialSolar` (lines 55–204): cache lookup first, then
validation and computation, then store the result. -/
def calculateCommercialSolar (c : Cache) (now : ℤ) (inputs : SolarCalculationInputs) :
    Except String SolarCalculationResults × Cache :=
  match cacheGet c inputs now with
  | (some r, c2) => (.ok r, c2)
  | (none, c2) =>
      match compute inputs with
      | .ok r => (.ok r, cacheSet c2 inputs r now)
      | .error e => (.error e, c2)

/-- A cache state is good when every stored entry is the computed result
for its own key.  Every table reachable from the empty one through
`calculateCommercialSolar` satisfies this (see `goodCache_calculate`). -/
def goodCache (c : Cache) : Prop :=
  ∀ p ∈ c, (compute p.1).toOption = some p.2.result

instance (c : Cache) : Decidable (goodCache c) := by
  unfold goodCache; infer_instance

/-! ## Named unrounded intermediates

The `let`-bound intermediate quantities of `compute`, restated as named
functions of the input so that theorems can speak about them.  Each is
definitionally equal to the corresponding `let` in `compute`
(see `compute_valid`). -/

/-- Line 116: annual production in kWh, before rounding. -/
def annualProductionQ (inputs : SolarCalculationInputs) : ℚ :=
  inputs.systemSize * (irradianceOf (locationKeyOf inputs.location) * 365) *
    systemEfficiencyOf inputs.panelQuality inputs.installationType

/-- Lines 144–157: total cost in CAD, before rounding. -/
def totalCostQ (inputs : SolarCalculationInputs) : ℚ :=
  inputs.systemSize * baseCostPerKwOf inputs.installationType inputs.panelQuality +
    batteryCostOf inputs.batteryStorage

/-- Line 171: net cost after both incentives, before rounding. -/
def netCostQ (inputs : SolarCalculationInputs) : ℚ :=
  totalCostQ inputs - cleanBcRebatesOf inputs.systemSize - totalCostQ inputs * 0.30

/-- Line 175: annual savings in CAD, before rounding. -/
def annualSavingsQ (inputs : SolarCalculationInputs) : ℚ :=
  annualProductionQ inputs * energyRateOf inputs.rateTier

/-- On a valid input, `compute` takes the success branch and every output
field is the rounding of the corresponding named intermediate. -/
theorem compute_valid (inputs : SolarCalculationInputs) (hv : validInput inputs) :
    compute inputs = .ok
      { systemSize := inputs.systemSize
        annualProduction := jsRound (annualProductionQ inputs)
        totalCost := jsRound (totalCostQ inputs)
        cleanBcRebates := jsRound (cleanBcRebatesOf inputs.systemSize)
        federalIncentives := jsRound (totalCostQ inputs * 0.30)
        netCost := jsRound (netCostQ inputs)
        annualSavings := jsRound (annualSavingsQ inputs)
        paybackPeriod := (jsRound (netCostQ inputs / annualSavingsQ inputs * 10) : ℚ) / 10
        roi25Year :=
          (jsRound ((annualSavingsQ inputs * 25 - netCostQ inputs) / netCostQ inputs * 100 * 10) : ℚ) / 10
        co2OffsetAnnual := (jsRound (annualProductionQ inputs * 0.42 / 1000 * 10) : ℚ) / 10 } := by
  obtain ⟨h1, h2, h3, h4, h5, h6, h7⟩ := hv
  rw [compute, if_neg (by push_neg; exact ⟨h1, h2, h3⟩),
    if_neg (by simp [h4, h5, h6, h7])]
  rfl

/-! ## Concrete inputs used by counterexamples and witnesses -/

/-- The spec's example scenario 1: 100 kW, base configuration, a location
that is not in the irradiance table (the empty string falls back to the
`"default"` key, i.e. the provincial average 3.3). -/
def scenario1Input : SolarCalculationInputs :=
  { systemSize := 100, monthlyUsage := 5000, currentBill := 2000,
    rateTier := "Medium General Service", installationType := "Roof-Mount",
    panelQuality := "Standard", batteryStorage := "None", location := "" }

/-- What the code actually returns on `scenario1Input`. -/
def scenario1Result : SolarCalculationResults :=
  { systemSize := 100, annualProduction := 102383, totalCost := 175000,
    cleanBcRebates := 50000, federalIncentives := 52500, netCost := 72500,
    annualSavings := 10842, paybackPeriod := 67/10, roi25Year := 2739/10,
    co2OffsetAnnual := 43 }

theorem compute_scenario1 : compute scenario1Input = .ok scenario1Result := by
  simp +decide [compute, scenario1Input, scenario1Result, irradianceOf, locationKeyOf,
    tableLookup, BC_SOLAR_IRRADIANCE, BC_COMMERCIAL_RATES, systemEfficiencyOf,
    baseCostPerKwOf, batteryCostOf, cleanBcRebatesOf, energyRateOf]
  norm_num [jsRound]

/-- The spec's example scenario 2: 500 kW, Tracker System, Premium Tier 1,
200kWh+ battery. -/
def scenario2Input : SolarCalculationInputs :=
  { systemSize := 500, monthlyUsage := 40000, currentBill := 6000,
    rateTier := "Large General Service", installationType := "Tracker System",
    panelQuality := "Premium Tier 1", batteryStorage := "200kWh+ Custom Solution",
    location := "" }

/-! ## Helper lemmas -/

theorem irradianceOf_pos (key : String) : 0 < irradianceOf key := by
  unfold irradianceOf tableLookup
  cases h : BC_SOLAR_IRRADIANCE.find? (fun p => decide (p.1 = key)) with
  | none => show (0:ℚ) < 3.3; norm_num
  | some p =>
      have hp : p ∈ BC_SOLAR_IRRADIANCE := List.mem_of_find?_eq_some h
      show (0:ℚ) < p.2
      fin_cases hp <;> norm_num

theorem energyRateOf_pos (rateTier : String) : 0 < energyRateOf rateTier := by
  unfold energyRateOf tableLookup
  cases h : BC_COMMERCIAL_RATES.find? (fun p => decide (p.1 = rateTier)) with
  | none => show (0:ℚ) < 0.1059; norm_num
  | some p =>
      have hp : p ∈ BC_COMMERCIAL_RATES := List.mem_of_find?_eq_some h
      show (0:ℚ) < p.2
      fin_cases hp <;> norm_num

theorem systemEfficiencyOf_pos (panelQuality installationType : String) :
    0 < systemEfficiencyOf panelQuality installationType := by
  unfold systemEfficiencyOf
  split_ifs <;> norm_num

theorem annualProductionQ_pos (inputs : SolarCalculationInputs)
    (hs : 0 < inputs.systemSize) : 0 < annualProductionQ inputs := by
  unfold annualProductionQ
  have h1 := irradianceOf_pos (locationKeyOf inputs.location)
  have h2 := systemEfficiencyOf_pos inputs.panelQuality inputs.installationType
  positivity

theorem annualSavingsQ_pos (inputs : SolarCalculationInputs)
    (hs : 0 < inputs.systemSize) : 0 < annualSavingsQ inputs := by
  unfold annualSavingsQ
  exact mul_pos (annualProductionQ_pos inputs hs) (energyRateOf_pos inputs.rateTier)

theorem cacheFind_mem {c : Cache} {k : SolarCalculationInputs} {e : CacheEntry}
    (h : cacheFind c k = some e) : (k, e) ∈ c := by
  unfold cacheFind at h
  rw [Option.map_eq_some'] at h
  obtain ⟨p, hp, hpe⟩ := h
  have hmem : p ∈ c := List.mem_of_find?_eq_some hp
  have hkey := List.find?_some hp
  simp only [decide_eq_true_eq] at hkey
  have hk : p.1 = k := hkey
  have hpk : p = (k, e) := Prod.ext hk hpe
  rwa [hpk] at hmem

theorem goodCache_ok {c : Cache} (h : goodCache c) {k : SolarCalculationInputs}
    {e : CacheEntry} (hm : (k, e) ∈ c) : compute k = .ok e.result := by
  have := h (k, e) hm
  cases hc : compute k with
  | error s => rw [hc] at this; simp [Except.toOption] at this
  | ok r => rw [hc] at this; simp [Except.toOption] at this; rw [this]

/-- No entry with the deleted key survives `Map.delete`. -/
theorem cacheFind_erase (c : Cache) (k : SolarCalculationInputs) :
    cacheFind (c.filter (fun p => decide (p.1 ≠ k))) k = none := by
  unfold cacheFind
  rw [Option.map_eq_none', List.find?_eq_none]
  intro p hp
  have h2 := (List.mem_filter.mp hp).2
  simp only [decide_not, Bool.not_eq_true', decide_eq_false_iff_not] at h2
  simpa using h2

/-- Destructing a cache hit: the stored entry is fresh and the table is
unchanged. -/
theorem cacheGet_hit {c : Cache} {k : SolarCalculationInputs} {now : ℤ}
    {r : SolarCalculationResults} {c2 : Cache}
    (h : cacheGet c k now = (some r, c2)) :
    ∃ e, cacheFind c k = some e ∧ e.result = r ∧ c2 = c := by
  unfold cacheGet at h
  cases hf : cacheFind c k with
  | none => rw [hf] at h; dsimp only at h; exact absurd (congrArg Prod.fst h) (by simp)
  | some e =>
      rw [hf] at h; dsimp only at h
      by_cases hexp : CACHE_DURATION < now - e.timestamp
      · rw [if_pos hexp] at h; exact absurd (congrArg Prod.fst h) (by simp)
      · rw [if_neg hexp] at h
        have h1 := congrArg Prod.fst h
        have h2 := congrArg Prod.snd h
        simp only at h1 h2
        exact ⟨e, rfl, Option.some.inj h1, h2.symm⟩

theorem goodCache_filter {c : Cache} (h : goodCache c) (f : SolarCalculationInputs × CacheEntry → Bool) :
    goodCache (c.filter f) := fun p hp => h p (List.mem_filter.mp hp).1

theorem goodCache_mapSet {c : Cache} (h : goodCache c) {k : SolarCalculationInputs}
    {e : CacheEntry} (hk : (compute k).toOption = some e.result) :
    goodCache (mapSet c k e) := by
  intro p hp
  unfold mapSet at hp
  split at hp
  · obtain ⟨q, hq, hpq⟩ := List.mem_map.mp hp
    by_cases hqk : q.1 = k
    · rw [if_pos hqk] at hpq; rw [← hpq]; exact hk
    · rw [if_neg hqk] at hpq; rw [← hpq]; exact h q hq
  · rcases List.mem_append.mp hp with hin | hnew
    · exact h p hin
    · rw [List.mem_singleton.mp hnew]; exact hk

theorem goodCache_cacheSet {c : Cache} (h : goodCache c) {k : SolarCalculationInputs}
    {r : SolarCalculationResults} {now : ℤ} (hk : (compute k).toOption = some r) :
    goodCache (cacheSet c k r now) := by
  unfold cacheSet
  have hm : goodCache (mapSet c k ⟨r, now⟩) := goodCache_mapSet h hk
  split
  · exact goodCache_filter hm _
  · exact hm

theorem goodCache_cacheGet {c : Cache} (h : goodCache c) (k : SolarCalculationInputs)
    (now : ℤ) : goodCache (cacheGet c k now).2 := by
  unfold cacheGet
  cases hf : cacheFind c k with
  | none => exact h
  | some e =>
      dsimp only
      by_cases hexp : CACHE_DURATION < now - e.timestamp
      · rw [if_pos hexp]; exact goodCache_filter h _
      · rw [if_neg hexp]; exact h

/-- Any answer of the cached entry point is the direct computation. -/
theorem calculate_fst (c : Cache) (now : ℤ) (inputs : SolarCalculationInputs)
    (h : goodCache c) :
    (calculateCommercialSolar c now inputs).1 = compute inputs := by
  unfold calculateCommercialSolar
  cases hg : cacheGet c inputs now with
  | mk o c2 =>
      cases o with
      | some r =>
          obtain ⟨e, hfind, her, hc2⟩ := cacheGet_hit hg
          have := goodCache_ok h (cacheFind_mem hfind)
          simp only [this, her]
      | none => cases hc : compute inputs <;> simp

/-- The cached entry point preserves the cache invariant. -/
theorem goodCache_calculate (c : Cache) (now : ℤ) (inputs : SolarCalculationInputs)
    (h : goodCache c) : goodCache (calculateCommercialSolar c now inputs).2 := by
  unfold calculateCommercialSolar
  have hget := goodCache_cacheGet h inputs now
  cases hg : cacheGet c inputs now with
  | mk o c2 =>
      rw [hg] at hget
      cases o with
      | some r => exact hget
      | none =>
          cases hc : compute inputs with
          | error s => exact hget
          | ok r =>
              simp only
              exact goodCache_cacheSet hget (by rw [hc]; rfl)

theorem validInput_scenario1 : validInput scenario1Input :=
  ⟨by norm_num [scenario1Input], by norm_num [scenario1Input], by norm_num [scenario1Input],
   by decide, by decide, by decide, by decide⟩

theorem validInput_scenario2 : validInput scenario2Input :=
  ⟨by norm_num [scenario2Input], by norm_num [scenario2Input], by norm_num [scenario2Input],
   by decide, by decide, by decide, by decide⟩

/-! ## Claim C1 -/

/-- Claim C1, counterexample: on the scenario-1 input the code returns
`annualProduction = 102383` (not ≈102,424) and `annualSavings = 10842`
(not ≈10,847): the claim's figures do not match the code (the other
figures of the claim do hold, see `scenario1_amended`). -/
theorem scenario1_counterexample :
    (compute scenario1Input).toOption.map (fun r => r.annualProduction) = some 102383 ∧
    (compute scenario1Input).toOption.map (fun r => r.annualSavings) = some 10842 ∧
    (102383 : ℤ) ≠ 102424 ∧ (10842 : ℤ) ≠ 10847 := by
  refine ⟨?_, ?_, by decide, by decide⟩ <;> rw [compute_scenario1] <;> rfl

/-- Claim C1 (amended): for systemSize 100, a location whose irradiance
resolves to the provincial average 3.3, Standard panels, Roof-Mount, no
battery, Medium General Service, and arbitrary positive monthlyUsage and
currentBill, the code returns annualProduction = 102,383 kWh
(= round(100 × 3.3 × 365 × 0.85)), totalCost = 175,000,
cleanBcRebates = 50,000, federalIncentives = 52,500, netCost = 72,500,
annualSavings = 10,842 (= round(102,382.5 × 0.1059)), and
paybackPeriod = 6.7, with monetary outputs rounded to the nearest CAD
and paybackPeriod to one decimal. -/
theorem scenario1_amended (mu cb : ℚ) (loc : String) (hmu : 0 < mu) (hcb : 0 < cb)
    (hloc : irradianceOf (locationKeyOf loc) = 3.3) :
    compute { systemSize := 100, monthlyUsage := mu, currentBill := cb,
              rateTier := "Medium General Service", installationType := "Roof-Mount",
              panelQuality := "Standard", batteryStorage := "None", location := loc } =
      .ok { systemSize := 100, annualProduction := 102383, totalCost := 175000,
            cleanBcRebates := 50000, federalIncentives := 52500, netCost := 72500,
            annualSavings := 10842, paybackPeriod := 67/10, roi25Year := 2739/10,
            co2OffsetAnnual := 43 } := by
  rw [compute_valid _ ⟨by norm_num, hmu, hcb,
    by show ("Medium General Service" : String) ≠ ""; decide,
    by show ("Roof-Mount" : String) ≠ ""; decide,
    by show ("Standard" : String) ≠ ""; decide,
    by show ("None" : String) ≠ ""; decide⟩]
  simp +decide [annualProductionQ, totalCostQ, netCostQ, annualSavingsQ, hloc,
    systemEfficiencyOf, baseCostPerKwOf, batteryCostOf, cleanBcRebatesOf, energyRateOf,
    tableLookup, BC_COMMERCIAL_RATES]
  norm_num [jsRound]

/-- Claim C1 witness for `scenario1_amended`, at monthlyUsage 5000,
currentBill 2000, and the empty location string (which falls back to the
`"default"` table key, irradiance 3.3). -/
theorem scenario1_amended_witness :
    compute scenario1Input =
      .ok { systemSize := 100, annualProduction := 102383, totalCost := 175000,
            cleanBcRebates := 50000, federalIncentives := 52500, netCost := 72500,
            annualSavings := 10842, paybackPeriod := 67/10, roi25Year := 2739/10,
            co2OffsetAnnual := 43 } :=
  scenario1_amended 5000 2000 "" (by norm_num) (by norm_num)
    (by simp +decide [irradianceOf, locationKeyOf, tableLookup, BC_SOLAR_IRRADIANCE])

/-! ## Claim C2 -/

/-- Claim C2: the provincial rebate is `min(systemSize × 500, 50000)` for
20 ≤ systemSize ≤ 100, `min(systemSize × 400, 125000)` for
systemSize > 100, and 0 below 20 kW; at exactly 100 kW the inclusive
lower tier applies, giving 50,000 CAD rather than the upper tier's
min(100 × 400, 125000) = 40,000; and the `cleanBcRebates` output of the
engine is exactly the (rounded) value of this formula. -/
theorem cleanBcRebates_tiers :
    (∀ s : ℚ, 20 ≤ s → s ≤ 100 → cleanBcRebatesOf s = min (s * 500) 50000) ∧
    (∀ s : ℚ, 100 < s → cleanBcRebatesOf s = min (s * 400) 125000) ∧
    (∀ s : ℚ, s < 20 → cleanBcRebatesOf s = 0) ∧
    cleanBcRebatesOf 100 = 50000 ∧
    min ((100 : ℚ) * 400) 125000 = 40000 ∧
    ∀ inputs : SolarCalculationInputs, validInput inputs →
      (compute inputs).toOption.map (fun r => r.cleanBcRebates) =
        some (jsRound (cleanBcRebatesOf inputs.systemSize)) := by
  refine ⟨?_, ?_, ?_, ?_, by norm_num, ?_⟩
  · intro s h1 h2; rw [cleanBcRebatesOf, if_pos ⟨h1, h2⟩]
  · intro s h
    rw [cleanBcRebatesOf, if_neg (fun hc => by linarith [hc.2]), if_pos h]
  · intro s h
    rw [cleanBcRebatesOf, if_neg (fun hc => by linarith [hc.1]),
      if_neg (by intro hc; linarith)]
  · rw [cleanBcRebatesOf, if_pos ⟨by norm_num, by norm_num⟩]; norm_num
  · intro inputs hv; rw [compute_valid inputs hv]; rfl

/-- Claim C2 witness: the tier formulas applied at 150 kW and at the
scenario-1 input (100 kW). -/
theorem cleanBcRebates_tiers_witness :
    cleanBcRebatesOf 150 = min (150 * 400) 125000 ∧
    (compute scenario1Input).toOption.map (fun r => r.cleanBcRebates) =
      some (jsRound (cleanBcRebatesOf scenario1Input.systemSize)) :=
  ⟨cleanBcRebates_tiers.2.1 150 (by norm_num),
   cleanBcRebates_tiers.2.2.2.2.2 scenario1Input validInput_scenario1⟩

/-! ## Claim C3 -/

/-- Positive numerics and non-empty but unrecognized strings in all three
enum-like configuration fields. -/
def bogusEnumInput : SolarCalculationInputs :=
  { systemSize := 50, monthlyUsage := 4000, currentBill := 1500,
    rateTier := "Medium General Service", installationType := "Hovercraft",
    panelQuality := "Cardboard", batteryStorage := "Potato", location := "" }

theorem validInput_bogusEnum : validInput bogusEnumInput :=
  ⟨by norm_num [bogusEnumInput], by norm_num [bogusEnumInput], by norm_num [bogusEnumInput],
   by decide, by decide, by decide, by decide⟩

/-- Claim C3, counterexample: an input whose installationType,
panelQuality and batteryStorage are present (non-empty) but are not
recognized enum values is NOT rejected — `compute` returns a result
instead of raising an input-validation error. -/
theorem bogusEnum_counterexample :
    (compute bogusEnumInput).toOption.isSome = true := by
  rw [compute_valid bogusEnumInput validInput_bogusEnum]; rfl

/-- Claim C3 (amended): the engine never validates enum membership.  Any
input whose numeric fields are positive and whose four configuration
strings are non-empty is accepted; an unrecognized installationType or
panelQuality silently contributes no multiplier (efficiency 0.85, cost
1750/kW) and an unrecognized batteryStorage adds no cost.  Only
emptiness is checked; locationRegion and rateTier additionally fall
back to defaults. -/
theorem unrecognized_enum_accepted :
    (∀ inputs : SolarCalculationInputs, validInput inputs →
        (compute inputs).toOption.isSome = true) ∧
    (∀ pq it : String, pq ≠ "High Efficiency" → pq ≠ "Premium Tier 1" →
        it ≠ "Ground-Mount" → it ≠ "Tracker System" →
        systemEfficiencyOf pq it = 0.85) ∧
    (∀ it pq : String, it ≠ "Ground-Mount" → it ≠ "Carport/Canopy" →
        it ≠ "Tracker System" → pq ≠ "High Efficiency" → pq ≠ "Premium Tier 1" →
        baseCostPerKwOf it pq = 1750) ∧
    (∀ b : String, b ≠ "50kWh Commercial Battery" → b ≠ "100kWh Commercial Battery" →
        b ≠ "200kWh+ Custom Solution" → batteryCostOf b = 0) := by
  refine ⟨?_, ?_, ?_, ?_⟩
  · intro inputs hv; rw [compute_valid inputs hv]; rfl
  · intro pq it h1 h2 h3 h4
    simp only [systemEfficiencyOf, if_neg h1, if_neg h2, if_neg h3, if_neg h4]
  · intro it pq h1 h2 h3 h4 h5
    simp only [baseCostPerKwOf, if_neg h1, if_neg h2, if_neg h3, if_neg h4, if_neg h5]
  · intro b h1 h2 h3
    simp only [batteryCostOf, if_neg h1, if_neg h2, if_neg h3]

/-- Claim C3 witness for `unrecognized_enum_accepted`, at the concrete
bogus-enum input. -/
theorem unrecognized_enum_accepted_witness :
    (compute bogusEnumInput).toOption.isSome = true ∧
    systemEfficiencyOf "Cardboard" "Hovercraft" = 0.85 ∧
    baseCostPerKwOf "Hovercraft" "Cardboard" = 1750 ∧
    batteryCostOf "Potato" = 0 :=
  ⟨unrecognized_enum_accepted.1 bogusEnumInput validInput_bogusEnum,
   unrecognized_enum_accepted.2.1 "Cardboard" "Hovercraft"
     (by decide) (by decide) (by decide) (by decide),
   unrecognized_enum_accepted.2.2.1 "Hovercraft" "Cardboard"
     (by decide) (by decide) (by decide) (by decide) (by decide),
   unrecognized_enum_accepted.2.2.2 "Potato" (by decide) (by decide) (by decide)⟩

/-! ## Claim C4 -/

/-- Claim C4, counterexample: an entry stored at T = 0 is still a HIT for
a lookup exactly at T + 5 minutes (now = 300000).  The code expires an
entry only strictly after the TTL (`now − T > 300000`), while the claim
requires a miss for every lookup at time ≥ T + 5min. -/
theorem ttl_boundary_counterexample :
    (cacheGet [(scenario1Input, ⟨scenario1Result, 0⟩)] scenario1Input 300000).1 =
      some scenario1Result := by
  simp [cacheGet, cacheFind, CACHE_DURATION]

/-- Claim C4 (amended): an entry stored at time T is returned by `get`
for every lookup at time ≤ T + 5min (the boundary is INCLUSIVE on the
hit side), and for every lookup at time strictly greater than T + 5min
`get` misses and removes the stale entry. -/
theorem cache_ttl (c : Cache) (k : SolarCalculationInputs) (e : CacheEntry) (now : ℤ)
    (hfind : cacheFind c k = some e) :
    (now - e.timestamp ≤ CACHE_DURATION → cacheGet c k now = (some e.result, c)) ∧
    (CACHE_DURATION < now - e.timestamp →
      (cacheGet c k now).1 = none ∧ cacheFind (cacheGet c k now).2 k = none) := by
  constructor
  · intro hfresh
    unfold cacheGet
    rw [hfind]
    dsimp only
    rw [if_neg (not_lt.mpr hfresh)]
  · intro hexp
    unfold cacheGet
    rw [hfind]
    dsimp only
    rw [if_pos hexp]
    exact ⟨rfl, cacheFind_erase c k⟩

/-- Claim C4 witness for `cache_ttl`: a concrete one-entry table, stored
at T = 0 and looked up at now = 299999 (inside the TTL window). -/
theorem cache_ttl_witness :
    cacheGet [(scenario1Input, ⟨scenario1Result, 0⟩)] scenario1Input 299999 =
      (some scenario1Result, [(scenario1Input, ⟨scenario1Result, 0⟩)]) :=
  (cache_ttl _ scenario1Input ⟨scenario1Result, 0⟩ 299999
    (by simp [cacheFind])).1 (by norm_num [CACHE_DURATION])

/-! ## Claim C5 -/

/-- Modelled from the spec (§4.1 step 2): panel-quality efficiency multiplier. -/
def specPanelEffFactor (panelQuality : String) : ℚ :=
  if panelQuality = "High Efficiency" then 1.1
  else if panelQuality = "Premium Tier 1" then 1.15 else 1

/-- Modelled from the spec (§4.1 step 2): installation-type efficiency multiplier. -/
def specInstallEffFactor (installationType : String) : ℚ :=
  if installationType = "Ground-Mount" then 1.05
  else if installationType = "Tracker System" then 1.25 else 1

/-- Modelled from the spec (§4.1 step 4): installation-type cost multiplier. -/
def specInstallCostFactor (installationType : String) : ℚ :=
  if installationType = "Ground-Mount" then 1.1
  else if installationType = "Carport/Canopy" then 1.3
  else if installationType = "Tracker System" then 1.5 else 1

/-- Modelled from the spec (§4.1 step 4): panel-quality cost multiplier. -/
def specPanelCostFactor (panelQuality : String) : ℚ :=
  if panelQuality = "High Efficiency" then 1.15
  else if panelQuality = "Premium Tier 1" then 1.25 else 1

/-- Claim C5: the system efficiency is 0.85 times the panel-quality and
installation-type multipliers, and the cost per kW is 1750 times the
installation-type and panel-quality cost multipliers — the adjustments
stack multiplicatively and order-independently; in particular, for
scenario 2 (500 kW, Tracker System, Premium Tier 1, 200kWh+ battery) the
efficiency is 0.85 × 1.15 × 1.25 and
totalCost = 500 × 1750 × 1.50 × 1.25 + 250,000 = 1,890,625. -/
theorem efficiency_cost_stacking :
    (∀ pq it : String, systemEfficiencyOf pq it =
        0.85 * specPanelEffFactor pq * specInstallEffFactor it) ∧
    (∀ it pq : String, baseCostPerKwOf it pq =
        1750 * specInstallCostFactor it * specPanelCostFactor pq) ∧
    systemEfficiencyOf "Premium Tier 1" "Tracker System" = 0.85 * 1.15 * 1.25 ∧
    (compute scenario2Input).toOption.map (fun r => r.totalCost) = some 1890625 ∧
    (1890625 : ℚ) = 500 * (1750 * 1.50 * 1.25) + 250000 := by
  refine ⟨?_, ?_, ?_, ?_, by norm_num⟩
  · intro pq it
    simp only [systemEfficiencyOf, specPanelEffFactor, specInstallEffFactor]
    split_ifs <;> norm_num
  · intro it pq
    simp only [baseCostPerKwOf, specInstallCostFactor, specPanelCostFactor]
    split_ifs <;> norm_num
  · simp +decide [systemEfficiencyOf]
  · rw [compute_valid scenario2Input validInput_scenario2]
    show some (jsRound (totalCostQ scenario2Input)) = some 1890625
    simp +decide [totalCostQ, baseCostPerKwOf, batteryCostOf, scenario2Input]
    norm_num [jsRound]

/-- A concrete good one-entry cache: scenario 1's own computed result. -/
theorem goodCache_scenario1_single (ts : ℤ) :
    goodCache [(scenario1Input, ⟨scenario1Result, ts⟩)] := by
  intro p hp
  rw [List.mem_singleton.mp hp]
  show (compute scenario1Input).toOption = some scenario1Result
  rw [compute_scenario1]; rfl

/-! ## Claim C6 -/

/-- Claim C6: with a good cache (every stored entry is the computed
result for its own key — the invariant every cache reachable from empty
satisfies, and which this call preserves), the cached entry point
returns exactly what a direct computation returns: putting the cache in
front of the engine never changes the answer. -/
theorem cache_transparency (c : Cache) (now : ℤ) (inputs : SolarCalculationInputs)
    (h : goodCache c) :
    (calculateCommercialSolar c now inputs).1 = compute inputs ∧
    goodCache (calculateCommercialSolar c now inputs).2 :=
  ⟨calculate_fst c now inputs h, goodCache_calculate c now inputs h⟩

/-- Claim C6 witness for `cache_transparency`: a served-from-cache hit on
a concrete one-entry table agrees with the direct computation. -/
theorem cache_transparency_witness :
    (calculateCommercialSolar [(scenario1Input, ⟨scenario1Result, 100⟩)] 200 scenario1Input).1 =
      compute scenario1Input :=
  (cache_transparency [(scenario1Input, ⟨scenario1Result, 100⟩)] 200 scenario1Input
    (goodCache_scenario1_single 100)).1

/-! ## Claim C7 -/

/-- With pairwise-distinct keys, the entry stored at a key is unique. -/
theorem nodupKeys_entry_unique {c : Cache} (hnd : (c.map Prod.fst).Nodup)
    {k : SolarCalculationInputs} {a b : CacheEntry}
    (ha : (k, a) ∈ c) (hb : (k, b) ∈ c) : a = b := by
  induction c with
  | nil => cases ha
  | cons x xs ih =>
      rw [List.map_cons, List.nodup_cons] at hnd
      rcases List.mem_cons.mp ha with ha1 | ha2 <;> rcases List.mem_cons.mp hb with hb1 | hb2
      · exact congrArg Prod.snd (ha1.trans hb1.symm)
      · exact absurd (List.mem_map_of_mem Prod.fst hb2) (by rw [← ha1] at hnd; exact hnd.1)
      · exact absurd (List.mem_map_of_mem Prod.fst ha2) (by rw [← hb1] at hnd; exact hnd.1)
      · exact ih hnd.2 ha2 hb2

/-- Claim C7: `set` runs a cleanup pass exactly when the entry count
after insertion exceeds 100; the cleanup pass keeps exactly the entries
within the TTL (removes every expired entry, removes no unexpired one);
and no live, unexpired entry is ever evicted by `get` (for key-distinct
tables, which all reachable tables are) or by `set` at any other key —
regardless of how large the table grows within the TTL window. -/
theorem cache_capacity_cleanup :
    (∀ (c : Cache) (k : SolarCalculationInputs) (r : SolarCalculationResults) (now : ℤ),
        (mapSet c k ⟨r, now⟩).length ≤ 100 → cacheSet c k r now = mapSet c k ⟨r, now⟩) ∧
    (∀ (c : Cache) (k : SolarCalculationInputs) (r : SolarCalculationResults) (now : ℤ),
        100 < (mapSet c k ⟨r, now⟩).length →
        cacheSet c k r now = cleanup (mapSet c k ⟨r, now⟩) now) ∧
    (∀ (c : Cache) (now : ℤ) (p : SolarCalculationInputs × CacheEntry),
        p ∈ cleanup c now ↔ p ∈ c ∧ now - p.2.timestamp ≤ CACHE_DURATION) ∧
    (∀ (c : Cache) (k : SolarCalculationInputs) (now : ℤ)
        (p : SolarCalculationInputs × CacheEntry),
        (c.map Prod.fst).Nodup → p ∈ c → now - p.2.timestamp ≤ CACHE_DURATION →
        p ∈ (cacheGet c k now).2) ∧
    (∀ (c : Cache) (k : SolarCalculationInputs) (r : SolarCalculationResults) (now : ℤ)
        (p : SolarCalculationInputs × CacheEntry),
        p ∈ c → now - p.2.timestamp ≤ CACHE_DURATION → p.1 ≠ k →
        p ∈ cacheSet c k r now) := by
  refine ⟨?_, ?_, ?_, ?_, ?_⟩
  · intro c k r now h; unfold cacheSet; rw [if_neg (not_lt.mpr h)]
  · intro c k r now h; unfold cacheSet; rw [if_pos h]
  · intro c now p; simp [cleanup, List.mem_filter]
  · intro c k now p hnd hp hfresh
    unfold cacheGet
    cases hf : cacheFind c k with
    | none => exact hp
    | some e =>
        dsimp only
        by_cases hexp : CACHE_DURATION < now - e.timestamp
        · rw [if_pos hexp]
          refine List.mem_filter.mpr ⟨hp, ?_⟩
          have hpk : p.1 ≠ k := by
            intro hk
            have hke : (k, e) ∈ c := cacheFind_mem hf
            have hpc : (k, p.2) ∈ c := by rw [← hk, Prod.mk.eta]; exact hp
            have hpe : p.2 = e := nodupKeys_entry_unique hnd hpc hke
            rw [hpe] at hfresh
            exact absurd hfresh (not_le.mpr hexp)
          simpa using hpk
        · rw [if_neg hexp]; exact hp
  · intro c k r now p hp hfresh hpk
    have hmem : p ∈ mapSet c k ⟨r, now⟩ := by
      unfold mapSet
      split
      · exact List.mem_map.mpr ⟨p, hp, by rw [if_neg hpk]⟩
      · exact List.mem_append.mpr (Or.inl hp)
    unfold cacheSet
    split
    · refine List.mem_filter.mpr ⟨hmem, ?_⟩
      simpa using hfresh
    · exact hmem

/-- Claim C7 witness for `cache_capacity_cleanup`: a fresh entry at a
different key survives a concrete `set`. -/
theorem cache_capacity_cleanup_witness :
    (scenario1Input, (⟨scenario1Result, 0⟩ : CacheEntry)) ∈
      cacheSet [(scenario1Input, ⟨scenario1Result, 0⟩)] scenario2Input scenario1Result 1 :=
  cache_capacity_cleanup.2.2.2.2 [(scenario1Input, ⟨scenario1Result, 0⟩)]
    scenario2Input scenario1Result 1 (scenario1Input, ⟨scenario1Result, 0⟩)
    (List.mem_singleton.mpr rfl) (by norm_num [CACHE_DURATION])
    (fun h => absurd (congrArg SolarCalculationInputs.rateTier h) (by decide))

/-! ## Claim C8 -/

/-- Claim C8: for every valid input the engine returns a result (no
error is raised past validation): federalIncentives is
totalCost × 0.30 with no cap, netCost is
totalCost − cleanBcRebates − federalIncentives with no clamping, and
paybackPeriod is netCost / annualSavings with no special case for a
zero divisor — and in this exact-arithmetic model the divisor
`annualSavingsQ` is in fact provably positive on every valid input. -/
theorem netCost_payback_formulas (inputs : SolarCalculationInputs) (hv : validInput inputs) :
    ∃ r, compute inputs = .ok r ∧
      r.federalIncentives = jsRound (totalCostQ inputs * 0.30) ∧
      r.netCost = jsRound (totalCostQ inputs - cleanBcRebatesOf inputs.systemSize -
        totalCostQ inputs * 0.30) ∧
      r.paybackPeriod = (jsRound (netCostQ inputs / annualSavingsQ inputs * 10) : ℚ) / 10 ∧
      0 < annualSavingsQ inputs :=
  ⟨_, compute_valid inputs hv, rfl, rfl, rfl, annualSavingsQ_pos inputs hv.1⟩

/-- Claim C8 witness for `netCost_payback_formulas`, at the scenario-1
input. -/
theorem netCost_payback_formulas_witness :
    (compute scenario1Input).toOption.map (fun r => r.netCost) =
      some (jsRound (totalCostQ scenario1Input - cleanBcRebatesOf scenario1Input.systemSize -
        totalCostQ scenario1Input * 0.30)) := by
  obtain ⟨r, h1, h2, h3, h4, h5⟩ := netCost_payback_formulas scenario1Input validInput_scenario1
  rw [h1]
  show some r.netCost = _
  exact congrArg some h3

/-! ## Claim C9 -/

/-- Claim C9: two calls whose eight input fields are pairwise equal
return identical results, at any cache states (satisfying the cache
invariant) and any times — whether or not either call is served from
the cache. -/
theorem calculation_deterministic (c1 c2 : Cache) (n1 n2 : ℤ)
    (a b : SolarCalculationInputs) (h1 : goodCache c1) (h2 : goodCache c2)
    (hs : a.systemSize = b.systemSize) (hu : a.monthlyUsage = b.monthlyUsage)
    (hb : a.currentBill = b.currentBill) (ht : a.rateTier = b.rateTier)
    (hi : a.installationType = b.installationType)
    (hq : a.panelQuality = b.panelQuality)
    (hba : a.batteryStorage = b.batteryStorage) (hl : a.location = b.location) :
    (calculateCommercialSolar c1 n1 a).1 = (calculateCommercialSolar c2 n2 b).1 := by
  have hab : a = b := by cases a; cases b; simp_all
  rw [calculate_fst c1 n1 a h1, calculate_fst c2 n2 b h2, hab]

/-- Claim C9 witness for `calculation_deterministic`: an uncached call
and a cache-hit call on the same input agree. -/
theorem calculation_deterministic_witness :
    (calculateCommercialSolar [] 0 scenario1Input).1 =
      (calculateCommercialSolar [(scenario1Input, ⟨scenario1Result, 0⟩)] 42 scenario1Input).1 :=
  calculation_deterministic [] [(scenario1Input, ⟨scenario1Result, 0⟩)] 0 42
    scenario1Input scenario1Input
    (fun p hp => absurd hp (List.not_mem_nil p))
    (goodCache_scenario1_single 0)
    rfl rfl rfl rfl rfl rfl rfl rfl

/-! ## Claim C10 -/

/-- Claim C10: under the cache invariant an invalid input is never
answered from the cache: although the cache is consulted before
validation, entries are only stored after a successful computation, so
a failing input raises the same validation error on every call and the
call leaves the cache unchanged (gains no entry). -/
theorem invalid_input_uncached (c : Cache) (now : ℤ) (inputs : SolarCalculationInputs)
    (h : goodCache c) (e : String) (he : compute inputs = .error e) :
    calculateCommercialSolar c now inputs = (.error e, c) := by
  have hfind : cacheFind c inputs = none := by
    cases hf : cacheFind c inputs with
    | none => rfl
    | some en =>
        have hok := goodCache_ok h (cacheFind_mem hf)
        rw [he] at hok
        exact Except.noConfusion hok
  unfold calculateCommercialSolar cacheGet
  rw [hfind]
  dsimp only
  rw [he]

/-- Invalid concrete input: zero system size. -/
def invalidZeroInput : SolarCalculationInputs :=
  { systemSize := 0, monthlyUsage := 1000, currentBill := 500,
    rateTier := "Medium General Service", installationType := "Roof-Mount",
    panelQuality := "Standard", batteryStorage := "None", location := "" }

/-- Claim C10 witness for `invalid_input_uncached`, at a concrete invalid
input and the empty cache. -/
theorem invalid_input_uncached_witness :
    calculateCommercialSolar [] 0 invalidZeroInput =
      (.error "System size, monthly usage, and current bill must be positive numbers", []) :=
  invalid_input_uncached [] 0 invalidZeroInput
    (fun p hp => absurd hp (List.not_mem_nil p))
    "System size, monthly usage, and current bill must be positive numbers"
    (by rw [compute, if_pos (Or.inl (by norm_num [invalidZeroInput]))])

end BCSolar
